import Mathlib

/-!
# Verification of the text-paraphraser service core

Shallow embedding of the repository's core logic:

* `TextValidator` (src/test.py): a per-character class filter over text,
  with `is_valid_text`, `is_valid_char` (`_is_valid_char` in the source)
  and `filter_text`.
* `load_model` (src/app/main.py): bounded-retry model acquisition with
  exponential backoff, mutating the module-level `model` / `tokenizer`
  globals.
* `paraphrase` and `health` (src/app/main.py): the two HTTP handlers.

Python strings are embedded as `List Char`; the module-level globals as an
explicit `LoadState` record threaded through the functions; the external
model/tokenizer capability as an oracle argument describing where (if
anywhere) each fetch or generation step raises.
-/

namespace Paraphraser

/-! ## TextValidator (src/test.py lines 11-56) -/

/-- `FORBIDDEN_CHARS` (src/test.py lines 23-26): the set of control
characters rejected outright by `is_valid_text`. -/
def FORBIDDEN_CHARS : List Char :=
  ['\x00', '\x01', '\x02', '\x03', '\x04', '\x05',
   '\x06', '\x07', '\x08', '\x0b', '\x0c', '\x0e']

/-- Cyrillic letters, the regex class `[а-яА-ЯёЁ]`. -/
def isCyrillic (c : Char) : Bool :=
  (0x430 ≤ c.toNat && c.toNat ≤ 0x44F) ||
  (0x410 ≤ c.toNat && c.toNat ≤ 0x42F) ||
  c.toNat = 0x451 || c.toNat = 0x401

/-- Latin letters, the regex class `[a-zA-Z]`. -/
def isLatin (c : Char) : Bool :=
  (0x61 ≤ c.toNat && c.toNat ≤ 0x7A) || (0x41 ≤ c.toNat && c.toNat ≤ 0x5A)

/-- Digits, the regex class `[0-9]`. -/
def isDigitChar (c : Char) : Bool :=
  0x30 ≤ c.toNat && c.toNat ≤ 0x39

/-- Python's `\s` character class for `str` patterns (also the set stripped
by `str.strip()`): `[\t\n\v\f\r]`, `\x1c`-`\x1f`, space, `\x85`, `\xa0`,
and the Unicode space characters. -/
def isPyWhitespace (c : Char) : Bool :=
  (0x9 ≤ c.toNat && c.toNat ≤ 0xD) ||
  (0x1C ≤ c.toNat && c.toNat ≤ 0x1F) ||
  c.toNat = 0x20 || c.toNat = 0x85 || c.toNat = 0xA0 || c.toNat = 0x1680 ||
  (0x2000 ≤ c.toNat && c.toNat ≤ 0x200A) ||
  c.toNat = 0x2028 || c.toNat = 0x2029 ||
  c.toNat = 0x202F || c.toNat = 0x205F || c.toNat = 0x3000

/-- The punctuation class `[.,!?;:\-—–"\'«»„"„]` (src/test.py line 20):
`.` `,` `!` `?` `;` `:` `-` em-dash U+2014 en-dash U+2013 `"` `'`
`«` U+00AB `»` U+00BB and U+201E (listed twice in the source). -/
def isPunct (c : Char) : Bool :=
  c.toNat = 0x2E || c.toNat = 0x2C || c.toNat = 0x21 || c.toNat = 0x3F ||
  c.toNat = 0x3B || c.toNat = 0x3A || c.toNat = 0x2D ||
  c.toNat = 0x2014 || c.toNat = 0x2013 || c.toNat = 0x22 ||
  c.toNat = 0x27 || c.toNat = 0xAB || c.toNat = 0xBB || c.toNat = 0x201E

/-- `TextValidator._is_valid_char` (src/test.py lines 45-51): a character is
valid iff some pattern in `ALLOWED_PATTERNS` matches it. -/
def is_valid_char (c : Char) : Bool :=
  isCyrillic c || isLatin c || isDigitChar c || isPyWhitespace c || isPunct c

/-- `TextValidator.is_valid_text` (src/test.py lines 28-43): empty text is
invalid; text with any character in `FORBIDDEN_CHARS` is invalid; otherwise
every character must pass `_is_valid_char`. -/
def is_valid_text (t : List Char) : Bool :=
  if t.isEmpty then false
  else if t.any (fun c => FORBIDDEN_CHARS.contains c) then false
  else t.all is_valid_char

/-- `TextValidator.filter_text` (src/test.py lines 53-56): keep exactly the
characters passing `_is_valid_char`, in order. -/
def filter_text (t : List Char) : List Char :=
  t.filter is_valid_char

/-! ## ModelLoader (src/app/main.py lines 13-50)

The module-level globals `model` and `tokenizer` start as `None`.
`load_model` runs up to `max_retries = 3` attempts; each attempt assigns
`tokenizer`, then `model`, then moves the model to the device — and any of
those steps can raise.  An `AttemptOutcome` records where a given attempt
raises, if anywhere; values stored in the handles are tagged with the index
of the attempt that produced them. -/

/-- The two module-level handles (src/app/main.py lines 14-15). -/
structure LoadState where
  model : Option Nat
  tokenizer : Option Nat
deriving DecidableEq

/-- State at module initialisation: `model = None`, `tokenizer = None`. -/
def initState : LoadState := ⟨none, none⟩

/-- Where a single load attempt raises: at the tokenizer fetch (before any
assignment), at the model fetch (after `tokenizer` was assigned), at
`model.to(device)` / `model.eval()` (after both assignments), or nowhere. -/
inductive AttemptOutcome
  | failTokenizer
  | failModel
  | failFinalize
  | success
deriving DecidableEq

/-- Effect of attempt number `k` on the globals, following the statement
order of the `try` block (src/app/main.py lines 27-41); returns the new
state and whether the attempt reached `return`. -/
def runAttempt (k : Nat) (s : LoadState) : AttemptOutcome → LoadState × Bool
  | .failTokenizer => (s, false)
  | .failModel => (⟨s.model, some k⟩, false)
  | .failFinalize => (⟨some k, some k⟩, false)
  | .success => (⟨some k, some k⟩, true)

/-- `max_retries` (src/app/main.py line 23). -/
def max_retries : Nat := 3

/-- Initial `retry_delay` (src/app/main.py line 24). -/
def base_delay : Nat := 5

/-- Result of a `load_model` call: whether it returned normally (`ok`,
otherwise the last error was re-raised), the final globals, the sleeps
performed between failed attempts, and how many attempts ran. -/
structure LoadResult where
  ok : Bool
  state : LoadState
  sleeps : List Nat
  attempts : Nat
deriving DecidableEq

/-- The `for attempt in range(max_retries)` loop (src/app/main.py lines
26-50): the list holds one outcome per remaining iteration; on failure with
iterations remaining, sleep `delay` and double it; on the last failure,
re-raise. -/
def load_model_go (k delay : Nat) (s : LoadState) : List AttemptOutcome → LoadResult
  | [] => ⟨false, s, [], 0⟩
  | o :: rest =>
    let (s', returned) := runAttempt k s o
    if returned then ⟨true, s', [], 1⟩
    else
      match rest with
      | [] => ⟨false, s', [], 1⟩
      | _ :: _ =>
        let r := load_model_go (k + 1) (delay * 2) s' rest
        ⟨r.ok, r.state, delay :: r.sleeps, r.attempts + 1⟩

/-- `load_model` (src/app/main.py lines 19-50): fast path when both globals
are already set; otherwise run the retry loop with `retry_delay = 5`.
A full run passes a list of `max_retries` outcomes. -/
def load_model (s : LoadState) (outcomes : List AttemptOutcome) : LoadResult :=
  if s.model.isNone || s.tokenizer.isNone then
    load_model_go 0 base_delay s outcomes
  else ⟨true, s, [], 0⟩

/-! ## Request/response model and the HTTP handlers (src/app/main.py) -/

/-- `device` (src/app/main.py line 16): computed once from the accelerator
probe. -/
def device (cuda_available : Bool) : String :=
  if cuda_available then "cuda" else "cpu"

/-- `ParaphraseRequest` (src/app/main.py lines 58-62).  The pydantic model
declares plain `int` / `float` annotations with defaults and no field
constraints. -/
structure ParaphraseRequest where
  text : List Char
  num_return_sequences : Int
  num_beams : Int
  temperature : Rat
deriving DecidableEq

/-- Default for `num_return_sequences` (src/app/main.py line 60). -/
def default_num_return_sequences : Int := 1

/-- Default for `num_beams` (src/app/main.py line 61). -/
def default_num_beams : Int := 5

/-- Default for `temperature` (src/app/main.py line 62). -/
def default_temperature : Rat := 1

/-- Request binding at the HTTP boundary: pydantic checks only that the
fields have the annotated scalar types (which the embedding's types already
guarantee) and fills in defaults for omitted fields; no bound or
positivity constraint is declared, so binding always succeeds. -/
def parse_request (text : List Char) (n b : Option Int) (t : Option Rat) :
    Option ParaphraseRequest :=
  some ⟨text, n.getD default_num_return_sequences,
        b.getD default_num_beams, t.getD default_temperature⟩

/-- `ParaphraseResponse` (src/app/main.py lines 65-68). -/
structure ParaphraseResponse where
  original_text : List Char
  paraphrases : List (List Char)
  device : String
deriving DecidableEq

/-- Outcome of one `/paraphrase` call, tagged with the HTTP status the
handler produces: `HTTPException(400)`, `HTTPException(503)`,
`HTTPException(500)`, or a 200 with a `ParaphraseResponse`. -/
inductive ParaResult
  | badRequest (detail : String)
  | unavailable (detail : String)
  | genError (detail : String)
  | ok (resp : ParaphraseResponse)
deriving DecidableEq

/-- Behaviour of the external tokenizer/model capability on one request:
either some step of encode/generate/decode raises with message `msg`, or
generation succeeds with the given decoded sequences. -/
inductive GenOutcome
  | fails (msg : String)
  | succeeds (outs : List (List Char))

/-- Python's `str.strip()`: drop leading and trailing whitespace
(the same character set as `\s`). -/
def pyStrip (t : List Char) : List Char :=
  ((t.dropWhile isPyWhitespace).reverse.dropWhile isPyWhitespace).reverse

/-- Observable effect of one `paraphrase` call: the HTTP result, the
globals after the call (the handler never assigns them), and the text
passed to the tokenizer if the `try` block was entered (`none` when the
handler rejected the request before touching model or tokenizer). -/
structure ParaOutcome where
  result : ParaResult
  state : LoadState
  tokenizerInput : Option (List Char)
deriving DecidableEq

/-- `paraphrase` (src/app/main.py lines 71-109): reject blank text with
400, reject with 503 while either global is unset, then run
encode/generate/decode, mapping any raised error to a 500 whose detail
embeds the message, and on success echo the request text with the decoded
paraphrases and the process device. -/
def paraphrase (req : ParaphraseRequest) (s : LoadState) (cuda : Bool)
    (gen : GenOutcome) : ParaOutcome :=
  if (pyStrip req.text).isEmpty then
    ⟨.badRequest "Text cannot be empty", s, none⟩
  else if s.model.isNone || s.tokenizer.isNone then
    ⟨.unavailable "Model not loaded", s, none⟩
  else
    match gen with
    | .fails msg =>
      ⟨.genError ("Error during paraphrasing: " ++ msg), s, some req.text⟩
    | .succeeds outs =>
      ⟨.ok ⟨req.text, outs, device cuda⟩, s, some req.text⟩

/-- The `/health` response body (src/app/main.py lines 114-119). -/
structure HealthResponse where
  status : String
  model_loaded : Bool
  device : String
  cuda_available : Bool
deriving DecidableEq

/-- `health` (src/app/main.py lines 112-119): a total function of the
current globals and the accelerator probe; `model_loaded` is
`model is not None`. -/
def health (s : LoadState) (cuda : Bool) : HealthResponse :=
  ⟨"healthy", s.model.isSome, device cuda, cuda⟩

end Paraphraser

namespace Paraphraser

/-- A character that passes `_is_valid_char` yet lies in `FORBIDDEN_CHARS`
must be `\x0b` or `\x0c` (the two forbidden characters that Python's `\s`
also matches). -/
theorem valid_and_forbidden (c : Char) (hv : is_valid_char c = true)
    (hf : c ∈ FORBIDDEN_CHARS) : c = '\x0b' ∨ c = '\x0c' := by
  simp only [FORBIDDEN_CHARS, List.mem_cons, List.not_mem_nil, or_false] at hf
  rcases hf with rfl | rfl | rfl | rfl | rfl | rfl | rfl | rfl | rfl | rfl | rfl | rfl <;>
    revert hv <;> decide

/-- C3 counterexample: the vertical tab `\x0b` passes `_is_valid_char`
(Python's `\s` matches it), so `filter_text` keeps it, yet it is in
`FORBIDDEN_CHARS`, so `is_valid_text` rejects the non-empty filtered
string. -/
theorem C3_counterexample :
    filter_text ['\x0b'] ≠ [] ∧
    is_valid_text (filter_text ['\x0b']) = false := by
  decide

/-- C3 (amended): for every string containing neither `\x0b` nor `\x0c`,
a non-empty `filter_text` output satisfies `is_valid_text`. -/
theorem C3_filter_output_valid (s : List Char) (hne : filter_text s ≠ [])
    (hb : '\x0b' ∉ s) (hc : '\x0c' ∉ s) :
    is_valid_text (filter_text s) = true := by
  have hforb : (filter_text s).any (fun c => FORBIDDEN_CHARS.contains c) = false := by
    rw [Bool.eq_false_iff]
    intro hany
    rw [List.any_eq_true] at hany
    obtain ⟨c, hcmem, hcf⟩ := hany
    have hmem := List.mem_filter.mp hcmem
    have hcf' : c ∈ FORBIDDEN_CHARS := List.elem_iff.mp hcf
    rcases valid_and_forbidden c hmem.2 hcf' with rfl | rfl
    · exact hb hmem.1
    · exact hc hmem.1
  have hemp : (filter_text s).isEmpty = false := List.isEmpty_eq_false.mpr hne
  rw [is_valid_text, hemp, hforb]
  simp only [Bool.false_eq_true, if_false]
  rw [List.all_eq_true]
  intro c hcmem
  exact (List.mem_filter.mp hcmem).2

/-- C3 witness: a concrete instantiation of the amended theorem. -/
theorem C3_filter_output_valid_witness :
    filter_text ['a'] ≠ [] ∧ '\x0b' ∉ ['a'] ∧ '\x0c' ∉ ['a'] ∧
    is_valid_text (filter_text ['a']) = true :=
  ⟨by decide, by decide, by decide,
   C3_filter_output_valid ['a'] (by decide) (by decide) (by decide)⟩

/-- C9: `filter_text` is idempotent. -/
theorem C9_filter_idempotent (s : List Char) :
    filter_text (filter_text s) = filter_text s := by
  simp [filter_text, List.filter_filter]

/-- C1 counterexample: when every attempt fails at the model fetch, the
tokenizer global — assigned earlier in the same `try` block — stays set
after `load_model` re-raises, so a reader observes the tokenizer handle set
while the model handle is unset. -/
theorem C1_counterexample :
    (load_model initState [.failModel, .failModel, .failModel]).ok = false ∧
    (load_model initState [.failModel, .failModel, .failModel]).state.model = none ∧
    (load_model initState [.failModel, .failModel, .failModel]).state.tokenizer = some 2 := by
  decide

/-- C1 (amended): when all 3 attempts fail, `load_model` re-raises the last
error; both globals are guaranteed to remain unset only when every attempt
failed at the tokenizer fetch, i.e. before any global assignment. -/
theorem C1_failed_load_propagates (o0 o1 o2 : AttemptOutcome)
    (h0 : o0 ≠ AttemptOutcome.success) (h1 : o1 ≠ AttemptOutcome.success)
    (h2 : o2 ≠ AttemptOutcome.success) :
    (load_model initState [o0, o1, o2]).ok = false ∧
    (o0 = AttemptOutcome.failTokenizer → o1 = AttemptOutcome.failTokenizer →
      o2 = AttemptOutcome.failTokenizer →
      (load_model initState [o0, o1, o2]).state = initState) := by
  cases o0 <;> cases o1 <;> cases o2 <;> revert h0 h1 h2 <;> decide

/-- C1 witness: a concrete all-attempts-fail run of `load_model`. -/
theorem C1_failed_load_propagates_witness :
    (load_model initState [.failTokenizer, .failTokenizer, .failTokenizer]).ok = false ∧
    (AttemptOutcome.failTokenizer = AttemptOutcome.failTokenizer →
      AttemptOutcome.failTokenizer = AttemptOutcome.failTokenizer →
      AttemptOutcome.failTokenizer = AttemptOutcome.failTokenizer →
      (load_model initState
        [.failTokenizer, .failTokenizer, .failTokenizer]).state = initState) :=
  C1_failed_load_propagates AttemptOutcome.failTokenizer AttemptOutcome.failTokenizer
    AttemptOutcome.failTokenizer (by decide) (by decide) (by decide)

/-- C2: a run whose first two attempts fail and whose third succeeds
returns normally after exactly the two backoff sleeps 5 and 10, uses all 3
attempts (never more than `max_retries`), and leaves the model handle
set. -/
theorem C2_retry_backoff (o0 o1 : AttemptOutcome)
    (h0 : o0 ≠ AttemptOutcome.success) (h1 : o1 ≠ AttemptOutcome.success) :
    (load_model initState [o0, o1, .success]).ok = true ∧
    (load_model initState [o0, o1, .success]).sleeps = [base_delay, base_delay * 2] ∧
    (load_model initState [o0, o1, .success]).attempts = max_retries ∧
    (load_model initState [o0, o1, .success]).state.model.isSome = true ∧
    (load_model initState [o0, o1, .success]).state.tokenizer.isSome = true := by
  cases o0 <;> cases o1 <;> revert h0 h1 <;> decide

/-- C2 witness: a concrete fails-twice-then-succeeds run. -/
theorem C2_retry_backoff_witness :
    (load_model initState [.failTokenizer, .failModel, .success]).ok = true ∧
    (load_model initState [.failTokenizer, .failModel, .success]).sleeps =
      [base_delay, base_delay * 2] ∧
    (load_model initState [.failTokenizer, .failModel, .success]).attempts = max_retries ∧
    (load_model initState
      [.failTokenizer, .failModel, .success]).state.model.isSome = true ∧
    (load_model initState
      [.failTokenizer, .failModel, .success]).state.tokenizer.isSome = true :=
  C2_retry_backoff AttemptOutcome.failTokenizer AttemptOutcome.failModel
    (by decide) (by decide)

/-- C7 counterexample: a load whose attempts all fail at the
`model.to(device)` step leaves both globals assigned even though
`load_model` re-raised (readiness is Failed), so `health` reports
`model_loaded = true` in a non-Ready state — `model_loaded` is not
equivalent to readiness. -/
theorem C7_counterexample :
    (load_model initState [.failFinalize, .failFinalize, .failFinalize]).ok = false ∧
    (health (load_model initState
      [.failFinalize, .failFinalize, .failFinalize]).state true).model_loaded = true := by
  decide

/-- C7 (amended): `health` is a total function that always answers
`status = "healthy"`, `model_loaded` equal to whether the model global is
set, the process-wide device string and the raw accelerator probe; and
after any `load_model` run that returned successfully, `model_loaded` is
`true`. -/
theorem C7_health_report (s : LoadState) (cuda : Bool) (o0 o1 o2 : AttemptOutcome)
    (h : (load_model initState [o0, o1, o2]).ok = true) :
    health s cuda = ⟨"healthy", s.model.isSome, device cuda, cuda⟩ ∧
    (health (load_model initState [o0, o1, o2]).state cuda).model_loaded = true := by
  refine ⟨rfl, ?_⟩
  show (load_model initState [o0, o1, o2]).state.model.isSome = true
  revert h
  cases o0 <;> cases o1 <;> cases o2 <;> decide

/-- C7 witness: health after a concrete successful load. -/
theorem C7_health_report_witness :
    (load_model initState [.success, .success, .success]).ok = true ∧
    (health initState true = ⟨"healthy", (initState).model.isSome, device true, true⟩ ∧
      (health (load_model initState
        [.success, .success, .success]).state true).model_loaded = true) :=
  ⟨by decide,
   C7_health_report initState true AttemptOutcome.success AttemptOutcome.success
     AttemptOutcome.success (by decide)⟩

/-- C4: a request whose text strips to the empty string is answered with
the 400 `"Text cannot be empty"` rejection, in every loader state and for
every model behaviour, and the tokenizer is never invoked; the detail
contains `"cannot be empty"`. -/
theorem C4_blank_text_rejected (req : ParaphraseRequest) (s : LoadState)
    (cuda : Bool) (gen : GenOutcome) (h : pyStrip req.text = []) :
    (paraphrase req s cuda gen).result = ParaResult.badRequest "Text cannot be empty" ∧
    (paraphrase req s cuda gen).tokenizerInput = none ∧
    "cannot be empty".data <:+: "Text cannot be empty".data := by
  have hp : paraphrase req s cuda gen =
      ⟨.badRequest "Text cannot be empty", s, none⟩ := by
    rw [paraphrase.eq_def, h]
    rfl
  exact ⟨by rw [hp], by rw [hp], by decide⟩

/-- C4 witness: a whitespace-only request against a loaded model. -/
theorem C4_blank_text_rejected_witness :
    pyStrip ("   ".data) = [] ∧
    ((paraphrase ⟨"   ".data, 1, 5, 1⟩ ⟨some 0, some 0⟩ true
        (.succeeds [])).result = ParaResult.badRequest "Text cannot be empty" ∧
      (paraphrase ⟨"   ".data, 1, 5, 1⟩ ⟨some 0, some 0⟩ true
        (.succeeds [])).tokenizerInput = none ∧
      "cannot be empty".data <:+: "Text cannot be empty".data) :=
  ⟨by decide,
   C4_blank_text_rejected ⟨"   ".data, 1, 5, 1⟩ ⟨some 0, some 0⟩ true
     (.succeeds []) (by decide)⟩

/-- C5: a request with non-blank text is answered with the 503
`"Model not loaded"` rejection whenever either global is unset, for every
model behaviour, and the tokenizer is never invoked. -/
theorem C5_not_ready_rejected (req : ParaphraseRequest) (s : LoadState)
    (cuda : Bool) (gen : GenOutcome) (hne : pyStrip req.text ≠ [])
    (hnr : s.model = none ∨ s.tokenizer = none) :
    (paraphrase req s cuda gen).result = ParaResult.unavailable "Model not loaded" ∧
    (paraphrase req s cuda gen).tokenizerInput = none := by
  have hemp : (pyStrip req.text).isEmpty = false := List.isEmpty_eq_false.mpr hne
  have hgate : (s.model.isNone || s.tokenizer.isNone) = true := by
    rcases hnr with h | h <;> simp [h]
  have hp : paraphrase req s cuda gen = ⟨.unavailable "Model not loaded", s, none⟩ := by
    rw [paraphrase.eq_def, hemp, hgate]
    rfl
  exact ⟨by rw [hp], by rw [hp]⟩

/-- C5 witness: a non-blank request in the initial (unloaded) state. -/
theorem C5_not_ready_rejected_witness :
    pyStrip ("hi".data) ≠ [] ∧ (initState.model = none ∨ initState.tokenizer = none) ∧
    ((paraphrase ⟨"hi".data, 1, 5, 1⟩ initState false
        (.fails "boom")).result = ParaResult.unavailable "Model not loaded" ∧
      (paraphrase ⟨"hi".data, 1, 5, 1⟩ initState false
        (.fails "boom")).tokenizerInput = none) :=
  ⟨by decide, by decide,
   C5_not_ready_rejected ⟨"hi".data, 1, 5, 1⟩ initState false (.fails "boom")
     (by decide) (by decide)⟩

/-- C6: when both globals are set and the encode/generate/decode pipeline
raises with message `msg`, the handler answers the 500 error whose detail
embeds `msg`, and the globals are unchanged by the call. -/
theorem C6_generation_failure_is_500 (req : ParaphraseRequest) (m t : Nat)
    (cuda : Bool) (msg : String) (hne : pyStrip req.text ≠ []) :
    (paraphrase req ⟨some m, some t⟩ cuda (.fails msg)).result =
      ParaResult.genError ("Error during paraphrasing: " ++ msg) ∧
    (paraphrase req ⟨some m, some t⟩ cuda (.fails msg)).state = ⟨some m, some t⟩ ∧
    msg.data <:+: ("Error during paraphrasing: " ++ msg).data := by
  have hemp : (pyStrip req.text).isEmpty = false := List.isEmpty_eq_false.mpr hne
  have hp : paraphrase req ⟨some m, some t⟩ cuda (.fails msg) =
      ⟨.genError ("Error during paraphrasing: " ++ msg), ⟨some m, some t⟩, some req.text⟩ := by
    rw [paraphrase, hemp]
    rfl
  refine ⟨by rw [hp], by rw [hp], ?_⟩
  refine ⟨"Error during paraphrasing: ".data, [], ?_⟩
  rw [String.data_append]
  simp

/-- C6 witness: a concrete failing generation against a loaded model. -/
theorem C6_generation_failure_is_500_witness :
    pyStrip ("hi".data) ≠ [] ∧
    ((paraphrase ⟨"hi".data, 1, 5, 1⟩ ⟨some 0, some 0⟩ false
        (.fails "boom")).result =
        ParaResult.genError ("Error during paraphrasing: " ++ "boom") ∧
      (paraphrase ⟨"hi".data, 1, 5, 1⟩ ⟨some 0, some 0⟩ false
        (.fails "boom")).state = ⟨some 0, some 0⟩ ∧
      "boom".data <:+: ("Error during paraphrasing: " ++ "boom").data) :=
  ⟨by decide,
   C6_generation_failure_is_500 ⟨"hi".data, 1, 5, 1⟩ 0 0 false "boom" (by decide)⟩

/-- C8 counterexample: request binding accepts a zero sequence count, a
negative beam width and a zero temperature, and `paraphrase` processes the
resulting request without any rejection. -/
theorem C8_counterexample :
    parse_request ("Hello".data) (some 0) (some (-1)) (some 0) =
      some ⟨"Hello".data, 0, -1, 0⟩ ∧
    (paraphrase ⟨"Hello".data, 0, -1, 0⟩ ⟨some 0, some 0⟩ false
      (.succeeds [])).result = ParaResult.ok ⟨"Hello".data, [], "cpu"⟩ := by
  constructor
  · rfl
  · rfl

/-- C8 (amended): `ParaphraseRequest` binding performs no positivity
validation: omitted fields take the declared defaults 1, 5 and 1.0, and any
supplied integer or float values — zero and negative included — are
accepted unchanged. -/
theorem C8_request_binding (text : List Char) (n b : Int) (t : Rat) :
    parse_request text none none none =
      some ⟨text, default_num_return_sequences, default_num_beams, default_temperature⟩ ∧
    parse_request text (some n) (some b) (some t) = some ⟨text, n, b, t⟩ :=
  ⟨rfl, rfl⟩

/-- C10: with both globals set, the request text is handed to the tokenizer
verbatim — whatever characters it contains and whatever the model then does
— and a successful generation echoes `original_text` equal to the request
text unchanged; no `TextValidator` filtering happens on the request path. -/
theorem C10_no_validation_on_request_path (req : ParaphraseRequest) (m t : Nat)
    (cuda : Bool) (gen : GenOutcome) (outs : List (List Char))
    (hne : pyStrip req.text ≠ []) :
    (paraphrase req ⟨some m, some t⟩ cuda gen).tokenizerInput = some req.text ∧
    (paraphrase req ⟨some m, some t⟩ cuda (.succeeds outs)).result =
      ParaResult.ok ⟨req.text, outs, device cuda⟩ := by
  have hemp : (pyStrip req.text).isEmpty = false := List.isEmpty_eq_false.mpr hne
  constructor
  · cases gen <;> · rw [paraphrase, hemp]; rfl
  · rw [paraphrase, hemp]; rfl

/-- C10 witness: text that `TextValidator` would reject (HTML brackets and
a NUL byte) flows to the tokenizer unchanged and comes back as
`original_text`. -/
theorem C10_no_validation_on_request_path_witness :
    pyStrip ("a<b\x00".data) ≠ [] ∧
    is_valid_text ("a<b\x00".data) = false ∧
    filter_text ("a<b\x00".data) ≠ "a<b\x00".data ∧
    ((paraphrase ⟨"a<b\x00".data, 1, 5, 1⟩ ⟨some 0, some 0⟩ true
        (.succeeds ["c".data])).tokenizerInput = some ("a<b\x00".data) ∧
      (paraphrase ⟨"a<b\x00".data, 1, 5, 1⟩ ⟨some 0, some 0⟩ true
        (.succeeds ["c".data])).result =
        ParaResult.ok ⟨"a<b\x00".data, ["c".data], device true⟩) :=
  ⟨by decide, by decide, by decide,
   C10_no_validation_on_request_path ⟨"a<b\x00".data, 1, 5, 1⟩ 0 0 true
     (.succeeds ["c".data]) ["c".data] (by decide)⟩

end Paraphraser
